import Mathlib

/-!
Shallow embedding of the night-sky terminal animation (src/main.rs).

The core simulation is embedded as executable Lean definitions:

* machine floats (`f32`) become `ℚ`, with the float-to-integer `as` casts
  modelled explicitly (truncation plus saturation, and the wrapping
  integer-to-integer cast);
* the thread-local random generator becomes explicit roll parameters: every
  `rng.gen_range(lo..hi)` call takes a raw natural number `r` and yields
  `lo + r % (hi - lo)`, which ranges over exactly the interval `[lo, hi)`
  as `r` ranges over `ℕ`;
* `gen_range` on an empty range panics in Rust, so the fallible creation
  functions return `Option`, with `none` modelling the panic.
-/

namespace NK

/-- `rng.gen_range(lo..hi)` on integers: `none` models the panic on an empty
range; otherwise the result is `lo + r % (hi - lo)`, which lies in `[lo, hi)`.
`r` is the raw randomness. -/
def genRange (lo hi r : ℕ) : Option ℕ :=
  if lo < hi then some (lo + r % (hi - lo)) else none

/-- `rng.gen_range(lo..=hi)` on integers (inclusive upper bound). -/
def genRangeIncl (lo hi r : ℕ) : Option ℕ :=
  if lo ≤ hi then some (lo + r % (hi + 1 - lo)) else none

/-- `Star` from src/main.rs: fixed grid position, base brightness, twinkle
speed (an `f32`, embedded as `ℚ`). -/
structure Star where
  x : ℕ
  y : ℕ
  brightness : ℕ
  twinkle_speed : ℚ
deriving DecidableEq

/-- `ShootingStar` from src/main.rs. -/
structure ShootingStar where
  x : ℚ
  y : ℚ
  speed : ℚ
  lifetime : ℕ
  max_lifetime : ℕ
deriving DecidableEq

/-- `Satellite` from src/main.rs. -/
structure Satellite where
  x : ℚ
  y : ℚ
  speed : ℚ
  blink_phase : ℚ
deriving DecidableEq

/-- `ShootingStar::new(width, height)`: `x` from `gen_range(0..width)`,
`y` from `gen_range(0..height/2)`, `speed` from `gen_range(2.0..4.0)`
(a float draw, passed in as `sp`), `lifetime = 0`, `max_lifetime` from
`gen_range(15..30)`. `none` models the `gen_range` panic on an empty
integer range. -/
def ShootingStar.new (width height rx ry rml : ℕ) (sp : ℚ) : Option ShootingStar :=
  match genRange 0 width rx, genRange 0 (height / 2) ry, genRange 15 30 rml with
  | some x, some y, some ml => some ⟨(x : ℚ), (y : ℚ), sp, 0, ml⟩
  | _, _, _ => none

/-- `ShootingStar::update`: `x += speed; y += speed * 0.5; lifetime += 1`. -/
def ShootingStar.update (s : ShootingStar) : ShootingStar :=
  { s with
    x := s.x + s.speed
    y := s.y + s.speed * (1 / 2)
    lifetime := s.lifetime + 1 }

/-- `ShootingStar::is_alive`: `lifetime < max_lifetime`. -/
def ShootingStar.is_alive (s : ShootingStar) : Bool :=
  decide (s.lifetime < s.max_lifetime)

/-- `Satellite::new(_width, height)`: `x = 0.0`,
`y` from `gen_range(5..height.saturating_sub(5))` (saturating subtraction is
`ℕ` subtraction; `none` models the panic when that range is empty),
`speed` from `gen_range(0.3..0.8)` and `blink_phase` from
`gen_range(0.0..6.28)` (float draws, passed in as `sp` and `ph`). -/
def Satellite.new (_width height ry : ℕ) (sp ph : ℚ) : Option Satellite :=
  (genRange 5 (height - 5) ry).map fun (y : ℕ) => ⟨0, (y : ℚ), sp, ph⟩

/-- `Satellite::update(width)`: `x += speed; blink_phase += 0.1;
if x > width { x = 0.0 }`. -/
def Satellite.update (width : ℕ) (s : Satellite) : Satellite :=
  { s with
    x := if (width : ℚ) < s.x + s.speed then 0 else s.x + s.speed
    blink_phase := s.blink_phase + 1 / 10 }

/-- `NightSky` from src/main.rs: the whole scene state. -/
structure NightSky where
  stars : List Star
  shooting_stars : List ShootingStar
  satellites : List Satellite
  frame_count : ℕ
  width : ℕ
  height : ℕ
deriving DecidableEq

/-- The raw randomness consumed when generating one `Star` in
`NightSky::new`: draws for `x`, `y`, `brightness`, and the float draw for
`twinkle_speed`. -/
structure StarRoll where
  rx : ℕ
  ry : ℕ
  rb : ℕ
  tw : ℚ

/-- One star of the `NightSky::new` star loop:
`x` from `gen_range(0..width)`, `y` from `gen_range(0..height)`,
`brightness` from `gen_range(1..=5)`, `twinkle_speed` from
`gen_range(0.1..0.5)`. -/
def mkStar (width height : ℕ) (roll : StarRoll) : Option Star :=
  match genRange 0 width roll.rx, genRange 0 height roll.ry,
      genRangeIncl 1 5 roll.rb with
  | some x, some y, some b => some ⟨x, y, b, roll.tw⟩
  | _, _, _ => none

/-- Collect a list of fallible results, failing if any element fails
(the `Option`-valued image of `(0..n).map(..).collect()`). -/
def traverseOption {α β : Type} (f : α → Option β) : List α → Option (List β)
  | [] => some []
  | a :: l =>
    match f a, traverseOption f l with
    | some b, some bs => some (b :: bs)
    | _, _ => none

/-- `NightSky::new(width, height)`: `star_count = min(width*height/20, 300)`
stars, empty shooting-star and satellite collections, `frame_count = 0`. -/
def NightSky.new (width height : ℕ) (rolls : ℕ → StarRoll) : Option NightSky :=
  (traverseOption (fun i => mkStar width height (rolls i))
      (List.range (min (width * height / 20) 300))).map
    fun stars => ⟨stars, [], [], 0, width, height⟩

/-- The raw randomness one `NightSky::update` call may consume:
the shooting-star spawn roll `gen_range(0..100)` (raw value `spawnShoot`),
the draws inside `ShootingStar::new`, the satellite spawn roll
`gen_range(0..300)` (raw value `spawnSat`), and the draws inside
`Satellite::new`. -/
structure UpdateRolls where
  spawnShoot : ℕ
  ssX : ℕ
  ssY : ℕ
  ssMaxLife : ℕ
  ssSpeed : ℚ
  spawnSat : ℕ
  satY : ℕ
  satSpeed : ℚ
  satPhase : ℚ

/-- The shooting-star spawn of `NightSky::update`:
`if gen_range(0..100) < 2 { shooting_stars.push(ShootingStar::new(w, h)) }`.
Returns the resulting shooting-star list, `none` when the push panics. -/
def shootSpawnStep (sky : NightSky) (r : UpdateRolls) : Option (List ShootingStar) :=
  if r.spawnShoot % 100 < 2 then
    (ShootingStar.new sky.width sky.height r.ssX r.ssY r.ssMaxLife r.ssSpeed).map
      fun s => sky.shooting_stars ++ [s]
  else some sky.shooting_stars

/-- The satellite spawn of `NightSky::update`:
`if satellites.is_empty() && gen_range(0..300) < 1 { satellites.push(Satellite::new(w, h)) }`. -/
def satSpawnStep (sky : NightSky) (r : UpdateRolls) : Option (List Satellite) :=
  if sky.satellites.isEmpty ∧ r.spawnSat % 300 < 1 then
    (Satellite.new sky.width sky.height r.satY r.satSpeed r.satPhase).map
      fun s => sky.satellites ++ [s]
  else some sky.satellites

/-- `NightSky::update`, in the source's order: increment `frame_count`;
roll and possibly push a new `ShootingStar`; advance every shooting star
(including a just-pushed one) and retain those with
`is_alive() && x < width`; roll and possibly push a new `Satellite`
(only when the collection is empty); advance every satellite (including a
just-pushed one) and retain those with `x < width`.
`none` models a panic inside a spawn. -/
def NightSky.update (sky : NightSky) (r : UpdateRolls) : Option NightSky :=
  (shootSpawnStep sky r).bind fun ss =>
    (satSpawnStep sky r).map fun sats =>
      { sky with
        frame_count := sky.frame_count + 1
        shooting_stars :=
          (ss.map ShootingStar.update).filter
            fun s => s.is_alive && decide (s.x < (sky.width : ℚ))
        satellites :=
          (sats.map (Satellite.update sky.width)).filter
            fun s => decide (s.x < (sky.width : ℚ)) }

/-- A sequence of `NightSky::update` calls, one per element of `rs`. -/
def NightSky.runUpdates (sky : NightSky) : List UpdateRolls → Option NightSky
  | [] => some sky
  | r :: rs => (sky.update r).bind fun sky' => sky'.runUpdates rs

/-! ### Rendering (the parts of `NightSky::render` the claims are about) -/

/-- An RGB color, as in `Color::Rgb(r, g, b)`. -/
structure Rgb where
  r : ℕ
  g : ℕ
  b : ℕ
deriving DecidableEq

/-- The glyphs the shooting-star renderer draws: the head glyph and the
trailing dot glyph. -/
inductive Glyph where
  | comet
  | dot
deriving DecidableEq

/-- One cell write produced by the renderer: grid coordinates (the viewport
origin is taken as `(0, 0)`), glyph, foreground color. -/
structure Cell where
  cx : ℕ
  cy : ℕ
  glyph : Glyph
  color : Rgb
deriving DecidableEq

/-- Truncation toward zero of a rational, as Rust float-to-integer `as`
casts do before clamping. -/
def ratTrunc (q : ℚ) : ℤ :=
  if q < 0 then -((-q : ℚ).floor) else q.floor

/-- Rust `f32 as u8`: truncate toward zero and saturate to `[0, 255]`. -/
def f32ToU8 (q : ℚ) : ℕ :=
  if q < 0 then 0 else min 255 q.floor.toNat

/-- Rust `f32 as u16`: truncate toward zero and saturate to `[0, 65535]`. -/
def f32ToU16 (q : ℚ) : ℕ :=
  if q < 0 then 0 else min 65535 q.floor.toNat

/-- Rust `f32 as i32`: truncate toward zero and saturate to the `i32` range. -/
def f32ToI32 (q : ℚ) : ℤ :=
  max (-(2 ^ 31)) (min (2 ^ 31 - 1) (ratTrunc q))

/-- Rust `i32 as u16`: wrap modulo `2^16`. -/
def i32ToU16 (z : ℤ) : ℕ :=
  (z % 65536).toNat

/-- The satellite blink factor: `(sin(blink_phase) + 1.0) / 2.0`, as a
function of `sin(blink_phase)`. -/
def satBlink (sinPhase : ℚ) : ℚ := (sinPhase + 1) / 2

/-- The satellite brightness channel: `(200.0 + blink * 55.0) as u8`, as a
function of `sin(blink_phase)`. -/
def satBrightness (sinPhase : ℚ) : ℕ :=
  f32ToU8 (200 + satBlink sinPhase * 55)

/-- Rust `u8` addition with the debug-build overflow check: `none` models
the overflow panic. -/
def u8AddChecked (a b : ℕ) : Option ℕ :=
  if a + b ≤ 255 then some (a + b) else none

/-- The satellite color `Color::Rgb(brightness, brightness, brightness + 50)`,
with the `u8` addition checked as a debug build does. -/
def satColorChecked (sinPhase : ℚ) : Option Rgb :=
  (u8AddChecked (satBrightness sinPhase) 50).map
    fun bb => ⟨satBrightness sinPhase, satBrightness sinPhase, bb⟩

/-- The head cell of a rendered shooting star: glyph at
`(x as u16, y as u16)`, color `Rgb(255, 200, 100)`. -/
def headCell (s : ShootingStar) : Cell :=
  ⟨f32ToU16 s.x, f32ToU16 s.y, Glyph.comet, ⟨255, 200, 100⟩⟩

/-- `trail_x` for trail index `i`: `(x - i as f32 * 0.5) as i32`. -/
def trailX (s : ShootingStar) (i : ℕ) : ℤ :=
  f32ToI32 (s.x - (i : ℚ) * (1 / 2))

/-- `trail_y` for trail index `i`: `(y - i as f32 * 0.25) as i32`. -/
def trailY (s : ShootingStar) (i : ℕ) : ℤ :=
  f32ToI32 (s.y - (i : ℚ) * (1 / 4))

/-- The trail-dot draw condition of the source:
`trail_x >= 0 && trail_y >= 0 && (trail_x as u16) < area.width && (trail_y as u16) < area.height`. -/
def trailCond (w h : ℕ) (s : ShootingStar) (i : ℕ) : Bool :=
  decide (0 ≤ trailX s i) && decide (0 ≤ trailY s i) &&
    decide (i32ToU16 (trailX s i) < w) && decide (i32ToU16 (trailY s i) < h)

/-- The cell a trail dot writes when drawn: dot glyph at
`(trail_x as u16, trail_y as u16)`, color `Rgb(200, 150, 50)`. -/
def trailCell (s : ShootingStar) (i : ℕ) : Cell :=
  ⟨i32ToU16 (trailX s i), i32ToU16 (trailY s i), Glyph.dot, ⟨200, 150, 50⟩⟩

/-- The cells one shooting star contributes in `NightSky::render`: nothing
unless the head position `(x as u16, y as u16)` is within bounds; otherwise
the head cell followed by the trail dots for `i in 1..4` that pass the
trail-dot condition. -/
def renderShootingStar (w h : ℕ) (s : ShootingStar) : List Cell :=
  if f32ToU16 s.x < w ∧ f32ToU16 s.y < h then
    headCell s ::
      (List.range' 1 3).filterMap
        fun i => if trailCond w h s i then some (trailCell s i) else none
  else []

/-- The shooting-star rendering loop over the scene's collection. -/
def renderShootingStars (w h : ℕ) : List ShootingStar → List Cell
  | [] => []
  | s :: rest => renderShootingStar w h s ++ renderShootingStars w h rest

/-! ### General lemmas about the embedded operations -/

theorem genRange_some (lo hi r : ℕ) (h : lo < hi) :
    genRange lo hi r = some (lo + r % (hi - lo)) ∧
      lo ≤ lo + r % (hi - lo) ∧ lo + r % (hi - lo) < hi := by
  have hm : r % (hi - lo) < hi - lo := Nat.mod_lt _ (by omega)
  exact ⟨by simp [genRange, h], by omega, by omega⟩

theorem traverseOption_some {α β : Type} (f : α → Option β) (P : β → Prop)
    (l : List α) (h : ∀ a ∈ l, ∃ b, f a = some b ∧ P b) :
    ∃ bs, traverseOption f l = some bs ∧ bs.length = l.length ∧ ∀ b ∈ bs, P b := by
  induction l with
  | nil => exact ⟨[], rfl, rfl, by simp⟩
  | cons a l ih =>
    obtain ⟨b, hb, hPb⟩ := h a (by simp)
    obtain ⟨bs, hbs, hlen, hP⟩ := ih fun x hx => h x (by simp [hx])
    refine ⟨b :: bs, ?_, by simp [hlen], ?_⟩
    · simp [traverseOption, hb, hbs]
    · intro c hc
      rcases List.mem_cons.mp hc with hc | hc
      · exact hc ▸ hPb
      · exact hP c hc

theorem mkStar_some (width height : ℕ) (roll : StarRoll)
    (hw : 0 < width) (hh : 0 < height) :
    ∃ st, mkStar width height roll = some st ∧
      st.x < width ∧ st.y < height ∧ 1 ≤ st.brightness ∧ st.brightness ≤ 5 := by
  have hb5 : roll.rb % 5 < 5 := Nat.mod_lt _ (by omega)
  refine ⟨⟨roll.rx % width, roll.ry % height, 1 + roll.rb % 5, roll.tw⟩, ?_,
    Nat.mod_lt _ hw, Nat.mod_lt _ hh, ?_, ?_⟩
  · simp [mkStar, genRange, genRangeIncl, hw, hh]
  · show 1 ≤ 1 + roll.rb % 5
    omega
  · show 1 + roll.rb % 5 ≤ 5
    omega

/-- `NightSky::new` always succeeds (for star counts above zero the
dimensions are forced positive, so no star draw ever sees an empty range),
and the fresh scene satisfies the construction contract. -/
theorem nightSky_new_total (width height : ℕ) (rolls : ℕ → StarRoll) :
    ∃ sky, NightSky.new width height rolls = some sky ∧
      sky.stars.length = min (width * height / 20) 300 ∧
      (∀ st ∈ sky.stars,
        st.x < width ∧ st.y < height ∧ 1 ≤ st.brightness ∧ st.brightness ≤ 5) ∧
      sky.shooting_stars = [] ∧ sky.satellites = [] ∧ sky.frame_count = 0 ∧
      sky.width = width ∧ sky.height = height := by
  have key : ∀ i ∈ List.range (min (width * height / 20) 300),
      ∃ st, mkStar width height (rolls i) = some st ∧
        st.x < width ∧ st.y < height ∧ 1 ≤ st.brightness ∧ st.brightness ≤ 5 := by
    intro i hi
    have hne : 0 < min (width * height / 20) 300 :=
      Nat.pos_of_ne_zero fun h0 => by simp [h0] at hi
    have h20 : 20 ≤ width * height := by
      by_contra hlt
      have : width * height / 20 = 0 := Nat.div_eq_of_lt (by omega)
      omega
    have hw : 0 < width := by
      rcases Nat.eq_zero_or_pos width with h | h
      · simp [h] at h20
      · exact h
    have hh : 0 < height := by
      rcases Nat.eq_zero_or_pos height with h | h
      · simp [h] at h20
      · exact h
    exact mkStar_some width height (rolls i) hw hh
  obtain ⟨stars, hst, hlen, hP⟩ := traverseOption_some _ _ _ key
  refine ⟨⟨stars, [], [], 0, width, height⟩, ?_, ?_, hP, rfl, rfl, rfl, rfl, rfl⟩
  · simp [NightSky.new, hst]
  · simpa using hlen

theorem nightSky_new_fields (width height : ℕ) (rolls : ℕ → StarRoll)
    (sky : NightSky) (h : NightSky.new width height rolls = some sky) :
    sky.shooting_stars = [] ∧ sky.satellites = [] ∧ sky.frame_count = 0 := by
  unfold NightSky.new at h
  cases ht : traverseOption (fun i => mkStar width height (rolls i))
      (List.range (min (width * height / 20) 300)) with
  | none => rw [ht] at h; simp at h
  | some stars =>
    rw [ht] at h
    simp only [Option.map_some', Option.some.injEq] at h
    subst h
    exact ⟨rfl, rfl, rfl⟩

theorem shootSpawnStep_cases (sky : NightSky) (r : UpdateRolls)
    (ss : List ShootingStar) (h : shootSpawnStep sky r = some ss) :
    ss = sky.shooting_stars ∨
      (r.spawnShoot % 100 < 2 ∧ ∃ s,
        ShootingStar.new sky.width sky.height r.ssX r.ssY r.ssMaxLife r.ssSpeed = some s ∧
        ss = sky.shooting_stars ++ [s]) := by
  unfold shootSpawnStep at h
  split at h
  · cases hn : ShootingStar.new sky.width sky.height r.ssX r.ssY r.ssMaxLife r.ssSpeed with
    | none => rw [hn] at h; simp at h
    | some s =>
      rw [hn] at h
      simp only [Option.map_some', Option.some.injEq] at h
      right
      exact ⟨by assumption, s, rfl, h.symm⟩
  · left
    simp only [Option.some.injEq] at h
    exact h.symm

theorem satSpawnStep_cases (sky : NightSky) (r : UpdateRolls)
    (sats : List Satellite) (h : satSpawnStep sky r = some sats) :
    sats = sky.satellites ∨
      (sky.satellites = [] ∧ ∃ s,
        Satellite.new sky.width sky.height r.satY r.satSpeed r.satPhase = some s ∧
        sats = [s]) := by
  unfold satSpawnStep at h
  split at h
  · next hcond =>
    cases hn : Satellite.new sky.width sky.height r.satY r.satSpeed r.satPhase with
    | none => rw [hn] at h; simp at h
    | some s =>
      rw [hn] at h
      simp only [Option.map_some', Option.some.injEq] at h
      have hemp : sky.satellites = [] := List.isEmpty_iff.mp hcond.1
      right
      exact ⟨hemp, s, rfl, by rw [← h, hemp]; rfl⟩
  · left
    simp only [Option.some.injEq] at h
    exact h.symm

/-- If the satellite collection is nonempty, the spawn step leaves it
unchanged. -/
theorem satSpawnStep_nonempty (sky : NightSky) (r : UpdateRolls)
    (hne : sky.satellites ≠ []) :
    satSpawnStep sky r = some sky.satellites := by
  unfold satSpawnStep
  rw [if_neg]
  intro hcond
  exact hne (List.isEmpty_iff.mp hcond.1)

/-- Characterization of a successful `NightSky::update`. -/
theorem update_some_iff (sky : NightSky) (r : UpdateRolls) (sky' : NightSky)
    (h : sky.update r = some sky') :
    ∃ ss sats, shootSpawnStep sky r = some ss ∧ satSpawnStep sky r = some sats ∧
      sky' = { sky with
        frame_count := sky.frame_count + 1
        shooting_stars :=
          (ss.map ShootingStar.update).filter
            fun s => s.is_alive && decide (s.x < (sky.width : ℚ))
        satellites :=
          (sats.map (Satellite.update sky.width)).filter
            fun s => decide (s.x < (sky.width : ℚ)) } := by
  unfold NightSky.update at h
  cases hss : shootSpawnStep sky r with
  | none => rw [hss] at h; simp at h
  | some ss =>
    cases hsat : satSpawnStep sky r with
    | none => rw [hss, hsat] at h; simp at h
    | some sats =>
      rw [hss, hsat] at h
      simp only [Option.some_bind, Option.map_some', Option.some.injEq] at h
      exact ⟨ss, sats, rfl, rfl, h.symm⟩

/-- `ShootingStar::new` succeeds whenever `width ≥ 1` and `height ≥ 2`
(both integer ranges it draws from are then nonempty). -/
theorem shootingStar_new_some (width height rx ry rml : ℕ) (sp : ℚ)
    (hw : 0 < width) (hh : 2 ≤ height) :
    ∃ s, ShootingStar.new width height rx ry rml sp = some s := by
  obtain ⟨hx, -, -⟩ := genRange_some 0 width rx hw
  obtain ⟨hy, -, -⟩ := genRange_some 0 (height / 2) ry
    (Nat.div_pos (by omega) (by omega))
  obtain ⟨hm, -, -⟩ := genRange_some 15 30 rml (by omega)
  exact ⟨⟨((0 + rx % (width - 0) : ℕ) : ℚ), ((0 + ry % (height / 2 - 0) : ℕ) : ℚ),
      sp, 0, 15 + rml % (30 - 15)⟩,
    by simp only [ShootingStar.new, hx, hy, hm]⟩

/-- `Satellite::new` succeeds whenever `height ≥ 11`, and the created
satellite has `x = 0` and `y` in `[5, height - 5)`. -/
theorem satellite_new_some (width height ry : ℕ) (sp ph : ℚ) (hh : 11 ≤ height) :
    ∃ s, Satellite.new width height ry sp ph = some s ∧ s.x = 0 ∧
      (5 : ℚ) ≤ s.y ∧ s.y < (height : ℚ) - 5 ∧ s.speed = sp ∧ s.blink_phase = ph := by
  obtain ⟨hy, hylo, hyhi⟩ := genRange_some 5 (height - 5) ry (by omega)
  refine ⟨⟨0, ((5 + ry % (height - 5 - 5) : ℕ) : ℚ), sp, ph⟩, ?_, rfl, ?_, ?_, rfl, rfl⟩
  · simp only [Satellite.new, hy, Option.map_some']
  · show (5 : ℚ) ≤ ((5 + ry % (height - 5 - 5) : ℕ) : ℚ)
    exact_mod_cast hylo
  · show ((5 + ry % (height - 5 - 5) : ℕ) : ℚ) < (height : ℚ) - 5
    have hcast : ((5 + ry % (height - 5 - 5) : ℕ) : ℚ) < ((height - 5 : ℕ) : ℚ) := by
      exact_mod_cast hyhi
    rwa [Nat.cast_sub (by omega)] at hcast

/-- `Satellite::new` fails (the `gen_range(5..height-5)` range is empty, a
panic in the source) whenever `height ≤ 10`. -/
theorem satellite_new_none (width height ry : ℕ) (sp ph : ℚ) (hh : height ≤ 10) :
    Satellite.new width height ry sp ph = none := by
  simp [Satellite.new, genRange, show ¬(5 < height - 5) by omega]

/-- `NightSky::update` succeeds for every roll outcome whenever the scene
has `width ≥ 1` and `height ≥ 11`. -/
theorem update_total (sky : NightSky) (r : UpdateRolls)
    (hw : 1 ≤ sky.width) (hh : 11 ≤ sky.height) :
    ∃ sky', sky.update r = some sky' := by
  obtain ⟨ss, hss⟩ : ∃ ss, shootSpawnStep sky r = some ss := by
    unfold shootSpawnStep
    split
    · obtain ⟨s, hs⟩ := shootingStar_new_some sky.width sky.height
        r.ssX r.ssY r.ssMaxLife r.ssSpeed (by omega) (by omega)
      exact ⟨_, by rw [hs]; rfl⟩
    · exact ⟨_, rfl⟩
  obtain ⟨sats, hsat⟩ : ∃ sats, satSpawnStep sky r = some sats := by
    unfold satSpawnStep
    split
    · obtain ⟨s, hs, -⟩ := satellite_new_some sky.width sky.height
        r.satY r.satSpeed r.satPhase (by omega)
      exact ⟨_, by rw [hs]; rfl⟩
    · exact ⟨_, rfl⟩
  exact ⟨_, by unfold NightSky.update; rw [hss, hsat]; rfl⟩

/-- One update preserves the bound of at most one satellite. -/
theorem update_satellites_len (sky : NightSky) (r : UpdateRolls) (sky' : NightSky)
    (h : sky.update r = some sky') (hlen : sky.satellites.length ≤ 1) :
    sky'.satellites.length ≤ 1 := by
  obtain ⟨ss, sats, hss, hsat, rfl⟩ := update_some_iff sky r sky' h
  have hsl : sats.length ≤ 1 := by
    rcases satSpawnStep_cases sky r sats hsat with h1 | ⟨hemp, s, -, h1⟩
    · exact h1 ▸ hlen
    · simp [h1]
  show ((sats.map (Satellite.update sky.width)).filter
      fun s => decide (s.x < (sky.width : ℚ))).length ≤ 1
  calc ((sats.map (Satellite.update sky.width)).filter
        fun s => decide (s.x < (sky.width : ℚ))).length
      ≤ (sats.map (Satellite.update sky.width)).length := List.length_filter_le _ _
    _ = sats.length := List.length_map _ _
    _ ≤ 1 := hsl

/-- Any sequence of updates preserves the bound of at most one satellite. -/
theorem runUpdates_satellites_len (rs : List UpdateRolls) (sky : NightSky)
    (hlen : sky.satellites.length ≤ 1) (sky' : NightSky)
    (h : sky.runUpdates rs = some sky') : sky'.satellites.length ≤ 1 := by
  induction rs generalizing sky with
  | nil =>
    simp only [NightSky.runUpdates, Option.some.injEq] at h
    exact h ▸ hlen
  | cons r rs ih =>
    simp only [NightSky.runUpdates] at h
    rcases Option.bind_eq_some.mp h with ⟨sky₁, h₁, h₂⟩
    exact ih sky₁ (update_satellites_len sky r sky₁ h₁ hlen) h₂

/-- Splitting the trail dots out of a `filterMap` of conditional cells. -/
theorem filterMap_dot_cells (cond : ℕ → Bool) (cell : ℕ → Cell)
    (hg : ∀ i, (cell i).glyph = Glyph.dot) (l : List ℕ) :
    (l.filterMap fun i => if cond i then some (cell i) else none).filter
        (fun c => decide (c.glyph = Glyph.dot)) =
      (l.filter cond).map cell := by
  induction l with
  | nil => rfl
  | cons a l ih =>
    cases hc : cond a
    · simp [List.filterMap_cons, List.filter_cons, hc, ih]
    · simp [List.filterMap_cons, List.filter_cons, hc, hg a, ih]

/-! ### The claims -/

set_option maxRecDepth 100000

/-- C1: the claim says scene construction and every `Scene.update` complete
successfully for all u16 dimensions and every spawn-roll outcome, and that
`ShootingStar` and `Satellite` creation never panic. The code contradicts
this: on a fresh 0-wide scene an update whose shooting-star spawn roll fires
calls `gen_range(0..0)` and panics (modelled by `none`), and
`Satellite::new` on a scene of height 10 calls `gen_range(5..5)` and
panics. -/
theorem C1_update_panics :
    (NightSky.new 0 5 (fun _ => ⟨0, 0, 0, 0⟩)).bind
        (fun sky => sky.update ⟨0, 0, 0, 0, 2, 50, 0, 1/2, 0⟩) = none ∧
      Satellite.new 80 10 0 (1/2) 0 = none := by
  with_unfolding_all decide

/-- C2 counterexample: in a 4×4 scene an update whose shooting-star spawn
roll fires (raw roll 0) creates the star `⟨0, 0, speed 2, lifetime 0, 15⟩`
and, at the end of that same update, the scene holds it already advanced to
`⟨2, 1, 2, lifetime 1, 15⟩` — not with `lifetime = 0` and its initial
position as the claim states. -/
theorem C2_spawn_advanced_cex :
    NightSky.update ⟨[], [], [], 0, 4, 4⟩ ⟨0, 0, 0, 0, 2, 50, 0, 1/2, 0⟩ =
        some ⟨[], [⟨2, 1, 2, 1, 15⟩], [], 1, 4, 4⟩ ∧
      (⟨2, 1, 2, 1, 15⟩ : ShootingStar).lifetime ≠ 0 ∧
      (⟨2, 1, 2, 1, 15⟩ : ShootingStar).x ≠ 0 := by
  with_unfolding_all decide

/-- C2 (amended): an entity appended by a spawn roll IS advanced (and
subject to culling) within the same update: after any successful update
every shooting star in the scene has `lifetime ≥ 1`, and every shooting
star and satellite present is the advanced image (`update` applied once)
of an entity that either pre-existed or was created by this update's spawn
roll. -/
theorem C2_amended_spawns_advanced (sky : NightSky) (r : UpdateRolls) (sky' : NightSky)
    (h : sky.update r = some sky') :
    (∀ st ∈ sky'.shooting_stars, 1 ≤ st.lifetime) ∧
    (∀ st ∈ sky'.shooting_stars, ∃ t, st = ShootingStar.update t ∧
      (t ∈ sky.shooting_stars ∨
        (r.spawnShoot % 100 < 2 ∧
          ShootingStar.new sky.width sky.height r.ssX r.ssY r.ssMaxLife r.ssSpeed = some t))) ∧
    (∀ sat ∈ sky'.satellites, ∃ t, sat = Satellite.update sky.width t ∧
      (t ∈ sky.satellites ∨
        Satellite.new sky.width sky.height r.satY r.satSpeed r.satPhase = some t)) := by
  obtain ⟨ss, sats, hss, hsat, rfl⟩ := update_some_iff sky r sky' h
  refine ⟨?_, ?_, ?_⟩
  · intro st hst
    have hst' : st ∈ ss.map ShootingStar.update := List.mem_of_mem_filter hst
    obtain ⟨t, -, rfl⟩ := List.mem_map.mp hst'
    show 1 ≤ t.lifetime + 1
    omega
  · intro st hst
    have hst' : st ∈ ss.map ShootingStar.update := List.mem_of_mem_filter hst
    obtain ⟨t, ht, rfl⟩ := List.mem_map.mp hst'
    refine ⟨t, rfl, ?_⟩
    rcases shootSpawnStep_cases sky r ss hss with h1 | ⟨hroll, s, hnew, h1⟩
    · exact Or.inl (h1 ▸ ht)
    · subst h1
      rcases List.mem_append.mp ht with ht | ht
      · exact Or.inl ht
      · simp only [List.mem_singleton] at ht
        exact Or.inr ⟨hroll, ht ▸ hnew⟩
  · intro sat hmem
    have hmem' : sat ∈ sats.map (Satellite.update sky.width) := List.mem_of_mem_filter hmem
    obtain ⟨t, ht, rfl⟩ := List.mem_map.mp hmem'
    refine ⟨t, rfl, ?_⟩
    rcases satSpawnStep_cases sky r sats hsat with h1 | ⟨hemp, s, hnew, h1⟩
    · exact Or.inl (h1 ▸ ht)
    · subst h1
      simp only [List.mem_singleton] at ht
      exact Or.inr (ht ▸ hnew)

/-- C2 amended, witnessed at the counterexample update: the star spawned in
that update ends it with `lifetime = 1`. -/
theorem C2_amended_witness :
    NightSky.update ⟨[], [], [], 0, 4, 4⟩ ⟨0, 0, 0, 0, 2, 50, 0, 1/2, 0⟩ =
        some ⟨[], [⟨2, 1, 2, 1, 15⟩], [], 1, 4, 4⟩ ∧
      1 ≤ (⟨2, 1, 2, 1, 15⟩ : ShootingStar).lifetime := by
  have hupd : NightSky.update ⟨[], [], [], 0, 4, 4⟩ ⟨0, 0, 0, 0, 2, 50, 0, 1/2, 0⟩ =
      some ⟨[], [⟨2, 1, 2, 1, 15⟩], [], 1, 4, 4⟩ := by with_unfolding_all decide
  exact ⟨hupd, (C2_amended_spawns_advanced _ _ _ hupd).1 _ (by simp)⟩

/-- C3: the brightness channel `floor(200 + blink * 55)` at
`blink_phase = 0` (so `sin = 0`, `blink = 1/2`) is 227, which lies in
`[200, 255]` as the claim says — but `227 + 50 = 277` exceeds the u8 range,
so the `+ 50` blue shift of the source overflows: the checked (debug-build)
addition fails, and the wrapped (release-build) value is 21, not a value
capped at 255. -/
theorem C3_blue_channel_overflow :
    satBrightness 0 = 227 ∧ 200 ≤ satBrightness 0 ∧ satBrightness 0 ≤ 255 ∧
      255 < satBrightness 0 + 50 ∧ satColorChecked 0 = none ∧
      (satBrightness 0 + 50) % 256 = 21 := by
  with_unfolding_all decide

/-- C4 counterexample: for height 5 (< 10), `Satellite::new` does not
succeed with `y = 0` as the claim states; it calls
`gen_range(5..0)` on an empty range and panics (modelled by `none`). -/
theorem C4_small_height_cex :
    Satellite.new 100 5 0 (1/2) 0 = none := by
  with_unfolding_all decide

/-- C4 (amended): a created Satellite has initial `x = 0` and `y` uniform
in `[5, h - 5)` (saturating subtraction), which requires `h ≥ 11`; for
`h ≤ 10` — in particular every height below 10 — the range is empty and
creation fails (panics) instead of clamping `y` to 0. -/
theorem C4_amended_satellite_creation (w h ry : ℕ) (sp ph : ℚ) :
    (11 ≤ h → ∃ s, Satellite.new w h ry sp ph = some s ∧ s.x = 0 ∧
      (5 : ℚ) ≤ s.y ∧ s.y < (h : ℚ) - 5 ∧ s.speed = sp ∧ s.blink_phase = ph) ∧
    (h ≤ 10 → Satellite.new w h ry sp ph = none) :=
  ⟨fun hh => satellite_new_some w h ry sp ph hh,
   fun hh => satellite_new_none w h ry sp ph hh⟩

/-- C4 amended, witnessed at heights 20 (succeeds, `y ∈ [5, 15)`) and 5
(fails). -/
theorem C4_amended_witness :
    (∃ s, Satellite.new 100 20 0 (1/2) 0 = some s ∧ s.x = 0 ∧
      (5 : ℚ) ≤ s.y ∧ s.y < ((20 : ℕ) : ℚ) - 5 ∧ s.speed = 1/2 ∧ s.blink_phase = 0) ∧
    Satellite.new 100 5 1 (1/3) 0 = none :=
  ⟨(C4_amended_satellite_creation 100 20 0 (1/2) 0).1 (by norm_num),
   (C4_amended_satellite_creation 100 5 1 (1/3) 0).2 (by norm_num)⟩

/-- C5: starting from any freshly constructed scene, after any sequence of
updates (any spawn-roll outcomes) the satellite collection holds at most
one satellite. -/
theorem C5_at_most_one_satellite (w h : ℕ) (rolls : ℕ → StarRoll)
    (rs : List UpdateRolls) (sky₀ sky : NightSky)
    (h₀ : NightSky.new w h rolls = some sky₀)
    (hrun : sky₀.runUpdates rs = some sky) :
    sky.satellites.length ≤ 1 := by
  obtain ⟨-, hsat, -⟩ := nightSky_new_fields w h rolls sky₀ h₀
  exact runUpdates_satellites_len rs sky₀ (by simp [hsat]) sky hrun

/-- C5 witnessed on a concrete 4×4 scene run for one no-spawn update. -/
theorem C5_witness :
    (⟨[], [], [], 1, 4, 4⟩ : NightSky).satellites.length ≤ 1 :=
  C5_at_most_one_satellite 4 4 (fun _ => ⟨0, 0, 0, 0⟩) [⟨50, 0, 0, 0, 2, 50, 0, 1/2, 0⟩]
    ⟨[], [], [], 0, 4, 4⟩ ⟨[], [], [], 1, 4, 4⟩
    (by with_unfolding_all decide) (by with_unfolding_all decide)

/-- C6: for positive dimensions, `Scene::new` yields exactly
`min(width*height/20, 300)` stars, each with coordinates in
`[0,width) × [0,height)` and brightness in `[1,5]`, plus empty shooting-star
and satellite collections and `frame_count = 0`. -/
theorem C6_scene_new_contract (w h : ℕ) (rolls : ℕ → StarRoll)
    (_hw : 0 < w) (_hh : 0 < h) :
    ∃ sky, NightSky.new w h rolls = some sky ∧
      sky.stars.length = min (w * h / 20) 300 ∧
      (∀ st ∈ sky.stars, st.x < w ∧ st.y < h ∧ 1 ≤ st.brightness ∧ st.brightness ≤ 5) ∧
      sky.shooting_stars = [] ∧ sky.satellites = [] ∧ sky.frame_count = 0 := by
  obtain ⟨sky, h1, h2, h3, h4, h5, h6, -, -⟩ := nightSky_new_total w h rolls
  exact ⟨sky, h1, h2, h3, h4, h5, h6⟩

/-- C6 witnessed at `Scene::new(100, 40)`: exactly
`min(100*40/20, 300) = 200` stars, no shooting stars, no satellites,
`frame_count = 0`. -/
theorem C6_witness :
    0 < 100 ∧ 0 < 40 ∧
      ∃ sky, NightSky.new 100 40 (fun _ => ⟨0, 0, 0, 0⟩) = some sky ∧
        sky.stars.length = 200 ∧ sky.shooting_stars = [] ∧ sky.satellites = [] ∧
        sky.frame_count = 0 := by
  refine ⟨by norm_num, by norm_num, ?_⟩
  obtain ⟨sky, h1, h2, -, h4, h5, h6⟩ :=
    C6_scene_new_contract 100 40 (fun _ => ⟨0, 0, 0, 0⟩) (by norm_num) (by norm_num)
  refine ⟨sky, h1, ?_, h4, h5, h6⟩
  rw [h2]
  norm_num

/-- C7 counterexample: a shooting star with `lifetime = 14 = 15 - 1 =
max_lifetime - 1` whose update leaves it at `x = 2 < width = 100` is
nevertheless removed by that same update — contradicting the claim's
survival condition `resulting x < width`. -/
theorem C7_survival_cex :
    (14 : ℕ) = 15 - 1 ∧
      (ShootingStar.update ⟨0, 0, 2, 14, 15⟩).x < ((100 : ℕ) : ℚ) ∧
      NightSky.update ⟨[], [⟨0, 0, 2, 14, 15⟩], [], 0, 100, 40⟩
          ⟨50, 0, 0, 0, 2, 50, 0, 1/2, 0⟩ =
        some ⟨[], [], [], 1, 100, 40⟩ := by
  with_unfolding_all decide

/-- C7 (amended): a ShootingStar whose lifetime equals `max_lifetime - 1`
before a `Scene.update` never survives that update, regardless of its
resulting `x`: the update raises `lifetime` to `max_lifetime`, so the star
fails the `is_alive` part of the retain predicate and is removed in that
same update. -/
theorem C7_amended_never_survives (sky : NightSky) (r : UpdateRolls) (sky' : NightSky)
    (st : ShootingStar) (h : sky.update r = some sky')
    (hl : st.lifetime = st.max_lifetime - 1) :
    ShootingStar.update st ∉ sky'.shooting_stars := by
  obtain ⟨ss, sats, hss, hsat, rfl⟩ := update_some_iff sky r sky' h
  intro hmem
  have hpred := List.of_mem_filter hmem
  have halive : (ShootingStar.update st).is_alive = true :=
    ((Bool.and_eq_true _ _).mp hpred).1
  have hlt : st.lifetime + 1 < st.max_lifetime := by
    simpa [ShootingStar.is_alive, ShootingStar.update] using halive
  omega

/-- C7 amended, witnessed at the counterexample star and update. -/
theorem C7_amended_witness :
    ShootingStar.update ⟨0, 0, 2, 14, 15⟩ ∉
      (⟨[], [], [], 1, 100, 40⟩ : NightSky).shooting_stars :=
  C7_amended_never_survives ⟨[], [⟨0, 0, 2, 14, 15⟩], [], 0, 100, 40⟩
    ⟨50, 0, 0, 0, 2, 50, 0, 1/2, 0⟩ ⟨[], [], [], 1, 100, 40⟩ ⟨0, 0, 2, 14, 15⟩
    (by with_unfolding_all decide) (by norm_num)

/-- C8: a Satellite at `x = 99.5` with `speed = 0.8` in a width-100 scene
advances to `x = 100.3 > 100`, wraps to `x = 0.0`, and is NOT removed by
the removal step: it remains in the scene after the update. -/
theorem C8_wrap_then_keep :
    (⟨199/2, 20, 4/5, 0⟩ : Satellite).x + (⟨199/2, 20, 4/5, 0⟩ : Satellite).speed
        = 1003/10 ∧
      (100 : ℚ) < 1003/10 ∧
      (Satellite.update 100 ⟨199/2, 20, 4/5, 0⟩).x = 0 ∧
      NightSky.update ⟨[], [], [⟨199/2, 20, 4/5, 0⟩], 0, 100, 40⟩
          ⟨50, 0, 0, 0, 2, 50, 0, 1/2, 0⟩ =
        some ⟨[], [], [⟨0, 20, 4/5, 1/10⟩], 1, 100, 40⟩ := by
  with_unfolding_all decide

/-- C9 counterexample: for a shooting star at `(10.2, 1.0)` in a 10×10
viewport, the first trail dot's own coordinates `(9.7, 0.75)` are
non-negative and within bounds (`trailCond` holds), yet nothing is drawn —
the head at `(10, 1)` is out of bounds and the source only draws the trail
inside the head's bounds check. This contradicts the claim that a trail
dot is drawn exactly when its own coordinates are in bounds, independently
of the head. -/
theorem C9_head_gating_cex :
    trailCond 10 10 ⟨51/5, 1, 2, 0, 15⟩ 1 = true ∧
      renderShootingStars 10 10 [⟨51/5, 1, 2, 0, 15⟩] = [] ∧
      trailCell ⟨51/5, 1, 2, 0, 15⟩ 1 ∉ renderShootingStars 10 10 [⟨51/5, 1, 2, 0, 15⟩] := by
  with_unfolding_all decide

/-- C9 (amended): the trail dots drawn for a shooting star are exactly the
`i ∈ {1,2,3}` whose own coordinates pass the non-negativity and bounds
check — but only when the head glyph at `(x as u16, y as u16)` is itself
within bounds; when the head is out of bounds no cell at all is drawn for
that star. -/
theorem C9_amended_trail_dots (w h : ℕ) (s : ShootingStar) :
    (renderShootingStars w h [s]).filter (fun c => decide (c.glyph = Glyph.dot)) =
      if f32ToU16 s.x < w ∧ f32ToU16 s.y < h then
        ((List.range' 1 3).filter fun i => trailCond w h s i).map (trailCell s)
      else [] := by
  have hnil : renderShootingStars w h [s] = renderShootingStar w h s := by
    show renderShootingStar w h s ++ renderShootingStars w h [] = _
    rw [show renderShootingStars w h ([] : List ShootingStar) = [] from rfl,
      List.append_nil]
  rw [hnil]
  unfold renderShootingStar
  by_cases hin : f32ToU16 s.x < w ∧ f32ToU16 s.y < h
  · rw [if_pos hin, if_pos hin, List.filter_cons]
    have hhead : decide ((headCell s).glyph = Glyph.dot) = false := rfl
    rw [hhead]
    simp only [Bool.false_eq_true, if_false]
    exact filterMap_dot_cells (fun i => trailCond w h s i) (trailCell s) (fun i => rfl) _
  · rw [if_neg hin, if_neg hin]
    rfl

/-- C10: when a satellite's advance lands exactly on the width
(`x + speed = width`), the wrap (which needs `x > width` strictly) does not
fire, the advanced `x` equals the width, and the retain step removes the
satellite — so the removal step is reachable despite the wrap rule. -/
theorem C10_exact_width_removal (sky : NightSky) (r : UpdateRolls) (sky' : NightSky)
    (sat : Satellite) (hsat : sky.satellites = [sat])
    (hx : sat.x + sat.speed = (sky.width : ℚ))
    (h : sky.update r = some sky') :
    (Satellite.update sky.width sat).x = (sky.width : ℚ) ∧ sky'.satellites = [] := by
  have hxupd : (Satellite.update sky.width sat).x = (sky.width : ℚ) := by
    show (if (sky.width : ℚ) < sat.x + sat.speed then 0 else sat.x + sat.speed)
        = (sky.width : ℚ)
    rw [hx, if_neg (lt_irrefl _)]
  obtain ⟨ss, sats, hss, hsats, rfl⟩ := update_some_iff sky r sky' h
  refine ⟨hxupd, ?_⟩
  have hsats' : sats = [sat] := by
    rcases satSpawnStep_cases sky r sats hsats with h1 | ⟨hemp, -⟩
    · rw [h1, hsat]
    · rw [hsat] at hemp
      simp at hemp
  subst hsats'
  show (([sat].map (Satellite.update sky.width)).filter
      fun s => decide (s.x < (sky.width : ℚ))) = []
  simp [hxupd]

/-- C10 witnessed at a width-100 scene holding a satellite at `x = 99.5`
with `speed = 0.5`, so the advance lands exactly on 100. -/
theorem C10_witness :
    (Satellite.update 100 ⟨199/2, 20, 1/2, 0⟩).x = ((100 : ℕ) : ℚ) ∧
      (⟨[], [], [], 1, 100, 40⟩ : NightSky).satellites = [] :=
  C10_exact_width_removal ⟨[], [], [⟨199/2, 20, 1/2, 0⟩], 0, 100, 40⟩
    ⟨50, 0, 0, 0, 2, 50, 0, 1/2, 0⟩ ⟨[], [], [], 1, 100, 40⟩ ⟨199/2, 20, 1/2, 0⟩
    rfl (by norm_num) (by with_unfolding_all decide)

end NK
